import Mathlib

/-!
Shallow embedding of the wicked-stake frontend (src/pages/index.tsx) and
proofs of the spec claims about it.

The source is a single-page React application.  The parts of it that carry
logic are embedded below as executable Lean definitions:

* the checked-set toggling of the Cranium / Stallion checkboxes
  (index.tsx lines 565-567 and 592-594);
* the Stake button's disabled predicate and its onClick contract call
  (index.tsx lines 605-623);
* the Fetch button's promise pipeline (index.tsx lines 519-549), both its
  outcome (which state setters run, whether the alert fires) and its event
  ordering;
* the error-to-message mapping getErrorMessage (index.tsx lines 58-73);
* the connector-selection button disabled predicate (index.tsx lines 264-284);
* the activating-connector marker effect (index.tsx lines 236-241, 281-284);
* the guard that hides the Interact panel without a library and account
  (index.tsx lines 467-473).
-/

namespace WickedStake

/-- Token ids as displayed in the UI (JS numbers after Number conversion). -/
abbrev TokenId := Nat

/-- Connector objects compared by reference identity in the source; modelled
by a countable identity. -/
abbrev Connector := Nat

/-- Error payload of a rejected contract-call promise. -/
abbrev ContractErr := String

/-- The big-number values returned by the ERC-721 contract calls before the
frontend converts them with JS Number (index.tsx 536, 539). -/
structure BigNumber where
  val : Nat
  deriving DecidableEq, Repr

/-- The Number(e) conversion the frontend applies to each resolved token id
(index.tsx 536, 539). -/
def toNumber (b : BigNumber) : TokenId :=
  b.val

/-! ## Checkbox toggling (index.tsx 565-567 and 592-594)

The cranium checkbox onChange handler is
`e.target.checked ? setCheckedCraniums([n, ...checkedCraniums])
                  : setCheckedCraniums(checkedCraniums.filter((e) => e !== n))`
and the stallion handler (592-594) is identical in shape on its own state. -/

/-- Checking the checkbox for id n: `[n, ...checked]` (prepend, with no
membership test). -/
def checkId (checked : List TokenId) (n : TokenId) : List TokenId :=
  n :: checked

/-- Unchecking the checkbox for id n: `checked.filter((e) => e !== n)`
(keeps exactly the elements different from n). -/
def uncheckId (checked : List TokenId) (n : TokenId) : List TokenId :=
  checked.filter (fun e => e != n)

/-! ## Stake button (index.tsx 605-623) -/

/-- A call into the staking contract.  The Stake onClick performs
`staking_contract.stake(checkedCraniums, checkedStallions)` (index.tsx 610). -/
inductive StakingCall where
  | stake (craniums stallions : List TokenId)
  deriving DecidableEq, Repr

/-- The Stake button's disabled attribute (index.tsx 620):
`checkedCraniums.length !== checkedStallions.length ||
 checkedCraniums.length === 0 || checkedStallions.length === 0`. -/
def stakeDisabled (checkedCraniums checkedStallions : List TokenId) : Bool :=
  (checkedCraniums.length != checkedStallions.length)
    || (checkedCraniums.length == 0)
    || (checkedStallions.length == 0)

/-- The contract call submitted by the Stake button's onClick
(index.tsx 609-610). -/
def stakeOnClick (checkedCraniums checkedStallions : List TokenId) : StakingCall :=
  StakingCall.stake checkedCraniums checkedStallions

/-! ## Error-to-message mapping (index.tsx 58-73)

getErrorMessage branches on the instanceof class of its Error argument; the
classes tested are disjoint, so an Error is classified by exactly one of the
six kinds below (other covers the final else branch). -/

/-- Classification of the Error argument of getErrorMessage by the
instanceof tests of index.tsx 59-66. -/
inductive JsError where
  | noEthereumProvider
  | unsupportedChainId
  | userRejectedInjected
  | userRejectedWalletConnect
  | userRejectedFrame
  | other
  deriving DecidableEq, Repr

/-- getErrorMessage (index.tsx 58-73). -/
def getErrorMessage : JsError → String
  | JsError.noEthereumProvider =>
      "No Ethereum browser extension detected, install MetaMask on desktop or visit from a dApp browser on mobile."
  | JsError.unsupportedChainId =>
      "You\x27re connected to an unsupported network."
  | JsError.userRejectedInjected =>
      "Please authorize this website to access your Ethereum account."
  | JsError.userRejectedWalletConnect =>
      "Please authorize this website to access your Ethereum account."
  | JsError.userRejectedFrame =>
      "Please authorize this website to access your Ethereum account."
  | JsError.other =>
      "An unknown error occurred. Check the console for more details."

/-- Whether the error is one of the three user-rejection variants
(injected, WalletConnect, Frame; index.tsx 63-67). -/
def isUserRejection : JsError → Bool
  | JsError.userRejectedInjected => true
  | JsError.userRejectedWalletConnect => true
  | JsError.userRejectedFrame => true
  | _ => false

/-- The four message strings getErrorMessage can return (index.tsx 60, 62,
68, 71). -/
def errorMessages : List String :=
  ["No Ethereum browser extension detected, install MetaMask on desktop or visit from a dApp browser on mobile.",
   "You\x27re connected to an unsupported network.",
   "Please authorize this website to access your Ethereum account.",
   "An unknown error occurred. Check the console for more details."]

/-! ## Connector-selection buttons (index.tsx 264-284) -/

/-- The reactive inputs of the connector button map of App
(index.tsx 233, 236, 244): the context connector and error, the
activating-connector marker, and the eager-connect completion flag. -/
structure AppState where
  triedEager : Bool
  activatingConnector : Option Connector
  connector : Option Connector
  error : Option JsError
  deriving DecidableEq, Repr

/-- The disabled attribute of the button for a registry entry
(index.tsx 268):
`!triedEager || !!activatingConnector || connected || !!error`, where
`connected = currentConnector === connector` (index.tsx 267). -/
def connectorButtonDisabled (s : AppState) (currentConnector : Connector) : Bool :=
  !s.triedEager
    || s.activatingConnector.isSome
    || (s.connector == some currentConnector)
    || s.error.isSome

/-! ## Activating-connector marker (index.tsx 236-241, 281-284)

The marker is a single useState cell of type Option.  It is written by the
button onClick (`setActivatingConnector(currentConnector)`, index.tsx 282)
and by the effect of index.tsx 237-241:
`if (activatingConnector && activatingConnector === connector)
   setActivatingConnector(undefined)`. -/

/-- One run of the activatingConnector effect (index.tsx 237-241), given the
current marker and the context connector. -/
def activatingEffect (marker : Option Connector) (connector : Option Connector) :
    Option Connector :=
  match marker with
  | some c => if connector = some c then none else some c
  | none => none

/-- Events that write the marker: a click on a connector button
(index.tsx 281-284), or a run of the effect after the context connector
changed (index.tsx 237-241). -/
inductive AppEvent where
  | clickConnector (c : Connector)
  | effectRun (connector : Option Connector)
  deriving DecidableEq, Repr

/-- The marker after a sequence of clicks and effect runs. -/
def runMarker (marker : Option Connector) : List AppEvent → Option Connector
  | [] => marker
  | AppEvent.clickConnector c :: es => runMarker (some c) es
  | AppEvent.effectRun conn :: es => runMarker (activatingEffect marker conn) es

/-! ## The Interact panel guard (index.tsx 467-473)

Interact returns `!!(props.library && props.account) && (<div>...</div>)`:
with a missing library or account it renders nothing, so none of its
buttons exist. -/

/-- Provider library handle; only its presence matters to the guard. -/
abbrev Library := Nat

/-- Connected account address. -/
abbrev Account := String

/-- The local state of the Interact component (index.tsx 468-471). -/
structure InteractState where
  craniumBalance : List TokenId
  stallionBalance : List TokenId
  checkedCraniums : List TokenId
  checkedStallions : List TokenId
  deriving DecidableEq, Repr, Inhabited

/-- The user-invocable operations of the Interact panel. -/
inductive InteractAction where
  | approveCraniums
  | approveStallions
  | fetchTokens
  | stakeChecked
  deriving DecidableEq, Repr

/-- A rendered id checkbox (index.tsx 561-571 and 588-598): input element id
and visible label. -/
structure Checkbox where
  inputId : String
  label : String
  deriving DecidableEq, Repr

/-- The id checkboxes rendered from an owned-id sequence
(index.tsx 558-575, 585-602): one per entry, input id indexed by position,
label showing the token id. -/
def renderCheckboxes (kind : String) (owned : List TokenId) : List Checkbox :=
  owned.enum.map (fun p =>
    { inputId := "input-id-" ++ kind ++ "-" ++ toString p.1
      label := "#" ++ toString p.2 })

/-- What the Interact panel renders. -/
structure InteractPanel where
  actions : List InteractAction
  craniumCheckboxes : List Checkbox
  stallionCheckboxes : List Checkbox
  deriving DecidableEq, Repr

/-- The Interact render function (index.tsx 472-626): nothing without a
library and an account, otherwise the panel with its four buttons and the
id checkboxes of the two owned-id sequences. -/
def renderInteract (library : Option Library) (account : Option Account)
    (st : InteractState) : Option InteractPanel :=
  match library, account with
  | some _, some _ =>
      some { actions := [InteractAction.approveCraniums, InteractAction.approveStallions,
                         InteractAction.fetchTokens, InteractAction.stakeChecked]
             craniumCheckboxes := renderCheckboxes "cranium" st.craniumBalance
             stallionCheckboxes := renderCheckboxes "stallion" st.stallionBalance }
  | _, _ => none

/-- The actions a render makes invocable: none when nothing rendered. -/
def availableActions (r : Option InteractPanel) : List InteractAction :=
  match r with
  | none => []
  | some p => p.actions

/-! ## The Fetch pipeline: outcome (index.tsx 519-549)

The onClick builds two balanceOf promises (523-524) and awaits both with
Promise.all (525).  In the fulfilment callback it synchronously creates one
tokenOfOwnerByIndex promise per owned unit for each collection (527-533) and
attaches a fulfilment handler to the Promise.all of each collection's
lookups that maps the results through Number and calls the state setter
(535-540).  The catch of line 542-545 is attached to the OUTER
`Promise.all(balances).then(callback)` chain only: it fires when a balance
query rejects (or the callback throws, which it does not), but NOT when an
inner lookup Promise.all rejects - those two inner chains carry no
rejection handler, so a lookup failure is an unhandled rejection and the
corresponding setter is simply never called. -/

/-- Promise.all over a list of settled results: fulfils with the list of
values when every input fulfils, rejects (with some input's reason) when
any input rejects. -/
def promiseAll {α : Type} : List (Except ContractErr α) → Except ContractErr (List α)
  | [] => Except.ok []
  | Except.ok v :: rest => (promiseAll rest).map (fun vs => v :: vs)
  | Except.error e :: _ => Except.error e

/-- The settled result of `Promise.all(Array(b).map((_, i) => lookup(i)))`
(index.tsx 527-533): the lookups at indices 0 to b-1. -/
def resolveTokens (lookup : Nat → Except ContractErr BigNumber) (b : Nat) :
    Except ContractErr (List BigNumber) :=
  promiseAll ((List.range b).map lookup)

/-- Observable outcome of one Fetch click: the lookup indices issued per
collection, the argument of each state setter if it ran, and whether the
window.alert of index.tsx 544 fired. -/
structure FetchOutcome where
  craniumLookupIndices : List Nat
  stallionLookupIndices : List Nat
  setCraniumBalance : Option (List TokenId)
  setStallionBalance : Option (List TokenId)
  alertShown : Bool
  deriving DecidableEq, Repr

/-- The Fetch onClick (index.tsx 519-549), as a function of the settled
results of the two balanceOf calls and of the per-index lookups of each
collection. -/
def runFetch (craniumBalanceOf stallionBalanceOf : Except ContractErr Nat)
    (craniumLookup stallionLookup : Nat → Except ContractErr BigNumber) :
    FetchOutcome :=
  match craniumBalanceOf, stallionBalanceOf with
  | Except.ok bc, Except.ok bs =>
      { craniumLookupIndices := List.range bc
        stallionLookupIndices := List.range bs
        setCraniumBalance :=
          (resolveTokens craniumLookup bc).toOption.map (List.map toNumber)
        setStallionBalance :=
          (resolveTokens stallionLookup bs).toOption.map (List.map toNumber)
        alertShown := false }
  | _, _ =>
      { craniumLookupIndices := []
        stallionLookupIndices := []
        setCraniumBalance := none
        setStallionBalance := none
        alertShown := true }

/-! ## The Fetch pipeline: event ordering (index.tsx 519-549)

All lookup promises are created synchronously inside the fulfilment
callback of the balance Promise.all (527-533), so no lookup is issued
before both balances have resolved; the issue order within the callback is
cranium indices then stallion indices.  The two inner Promise.all
fulfilment handlers (535-540) are independent continuations whose
completion order the code does not constrain; the scheduling choice between
them is the craniumFirst parameter. -/

/-- The two collections. -/
inductive Coll where
  | cranium
  | stallion
  deriving DecidableEq, Repr

/-- Events of one Fetch run. -/
inductive FetchEvent where
  | balancesResolved
  | lookupIssued (c : Coll) (i : Nat)
  | tokensResolved (c : Coll)
  deriving DecidableEq, Repr

/-- The lookup-issue events of the fulfilment callback (index.tsx 527-533),
in their synchronous creation order. -/
def lookupIssueEvents (bc bs : Nat) : List FetchEvent :=
  (List.range bc).map (FetchEvent.lookupIssued Coll.cranium)
    ++ (List.range bs).map (FetchEvent.lookupIssued Coll.stallion)

/-- A possible event trace of one successful Fetch run with balances bc and
bs; craniumFirst picks which collection's lookups resolve first. -/
def fetchTrace (bc bs : Nat) (craniumFirst : Bool) : List FetchEvent :=
  FetchEvent.balancesResolved ::
    (lookupIssueEvents bc bs
      ++ (if craniumFirst then
            [FetchEvent.tokensResolved Coll.cranium, FetchEvent.tokensResolved Coll.stallion]
          else
            [FetchEvent.tokensResolved Coll.stallion, FetchEvent.tokensResolved Coll.cranium]))

/-- Event a occurs strictly before event b in trace t. -/
def eventBefore (t : List FetchEvent) (a b : FetchEvent) : Prop :=
  ∃ i j : Nat, i < j ∧ t[i]? = some a ∧ t[j]? = some b

end WickedStake

namespace WickedStake

/-- Promise.all of a list of fulfilled promises fulfils with the list of
their values, in order. -/
theorem promiseAll_map_ok {α : Type} (f : Nat → α) (l : List Nat) :
    promiseAll (l.map (fun i => (Except.ok (f i) : Except ContractErr α))) =
      Except.ok (l.map f) := by
  induction l with
  | nil => rfl
  | cons a as ih => simp [promiseAll, ih, Except.map]

/-- Promise.all rejects when any member of the list rejects. -/
theorem promiseAll_error_of_mem {α : Type} (rs : List (Except ContractErr α))
    (e : ContractErr) (hm : Except.error e ∈ rs) :
    ∃ e2, promiseAll rs = Except.error e2 := by
  induction rs with
  | nil => cases hm
  | cons r rest ih =>
    cases r with
    | error e1 => exact ⟨e1, rfl⟩
    | ok v =>
      have hm2 : Except.error e ∈ rest := by
        rcases List.mem_cons.mp hm with h | h
        · cases h
        · exact h
      obtain ⟨e2, he2⟩ := ih hm2
      exact ⟨e2, by simp [promiseAll, he2, Except.map]⟩

/-- Index arithmetic for the event traces: the element of a cons-append
trace that sits k places after the appended suffix begins. -/
theorem cons_append_getElem {α : Type} (a : α) (l r : List α) (k : Nat) :
    (a :: (l ++ r))[l.length + 1 + k]? = r[k]? := by
  have h1 : l.length + 1 + k = (l.length + k) + 1 := by omega
  rw [h1, List.getElem?_cons_succ,
    List.getElem?_append_right (Nat.le_add_right l.length k)]
  congr 1
  omega

/-- C1: the Stake button is disabled exactly when the checked cardinalities
differ or either checked set is empty (including the (0,0) case), and its
onClick submits exactly the two checked id sequences to the staking
contract's stake entry point. -/
theorem stake_button_spec (cs ss : List TokenId) :
    (stakeDisabled cs ss = true ↔
      cs.length ≠ ss.length ∨ cs.length = 0 ∨ ss.length = 0) ∧
    stakeOnClick cs ss = StakingCall.stake cs ss := by
  constructor
  · simp only [stakeDisabled, Bool.or_eq_true, bne_iff_ne, beq_iff_eq, ne_eq,
      List.length_eq_zero]
    tauto
  · rfl

/-- C5 counterexample: with prior checked set [5], checking id 5 and then
unchecking it yields [], not the prior state: unchecking filters every
occurrence of the id, including one that was already present before the
check. -/
theorem toggle_pair_counterexample :
    uncheckId (checkId [5] 5) 5 ≠ [5] := by
  decide

/-- C5 (amended): for every prior checked-set state NOT already containing
the id, checking then unchecking that id returns the checked set to exactly
its prior state. -/
theorem toggle_pair_restores (s : List TokenId) (n : TokenId) (h : n ∉ s) :
    uncheckId (checkId s n) n = s := by
  simp only [checkId, uncheckId, List.filter_cons, bne_self_eq_false,
    Bool.false_eq_true, if_false]
  exact List.filter_eq_self.mpr fun a ha => by
    simp only [bne_iff_ne, ne_eq]
    exact fun hc => h (hc ▸ ha)

/-- C5 witness: a concrete instance of toggle_pair_restores. -/
theorem toggle_pair_restores_witness :
    (5 : TokenId) ∉ ([3, 8] : List TokenId) ∧
      uncheckId (checkId [3, 8] 5) 5 = [3, 8] :=
  ⟨by decide, toggle_pair_restores [3, 8] 5 (by decide)⟩

/-- C10: unchecking an id removes every occurrence of it from the checked
set and leaves the count of every other id unchanged, while checking an id
prepends it unconditionally, so checking an id already present leaves it
with at least two occurrences. -/
theorem toggle_ops_characterization (s : List TokenId) (n : TokenId) :
    (uncheckId s n).count n = 0 ∧
    (∀ m, m ≠ n → (uncheckId s n).count m = s.count m) ∧
    checkId s n = n :: s ∧
    (n ∈ s → 2 ≤ (checkId s n).count n) := by
  refine ⟨?_, ?_, rfl, ?_⟩
  · simp only [uncheckId, List.count_eq_zero, List.mem_filter, bne_self_eq_false,
      Bool.false_eq_true, and_false, not_false_eq_true]
  · intro m hm
    simp only [uncheckId]
    induction s with
    | nil => rfl
    | cons a as ih =>
      by_cases ha : a = n
      · subst ha
        simp only [List.filter_cons, bne_self_eq_false, Bool.false_eq_true, if_false, ih]
        rw [List.count_cons_of_ne hm]
      · rw [List.filter_cons, if_pos (by simpa using ha)]
        by_cases hma : m = a
        · subst hma
          rw [List.count_cons_self, List.count_cons_self, ih]
        · rw [List.count_cons_of_ne hma, List.count_cons_of_ne hma, ih]
  · intro hmem
    simp only [checkId, List.count_cons_self]
    have : 0 < s.count n := List.count_pos_iff.mpr hmem
    omega

/-- C10 witness: concrete instances of each part of
toggle_ops_characterization. -/
theorem toggle_ops_characterization_witness :
    (uncheckId [5, 3, 5] 5).count 5 = 0 ∧
    ((3 : TokenId) ≠ 5 ∧ (uncheckId [5, 3, 5] 5).count 3 = ([5, 3, 5] : List TokenId).count 3) ∧
    checkId [5, 3, 5] 5 = [5, 5, 3, 5] ∧
    ((5 : TokenId) ∈ ([5, 3, 5] : List TokenId) ∧ 2 ≤ (checkId [5, 3, 5] 5).count 5) :=
  ⟨(toggle_ops_characterization [5, 3, 5] 5).1,
   ⟨by decide, (toggle_ops_characterization [5, 3, 5] 5).2.1 3 (by decide)⟩,
   (toggle_ops_characterization [5, 3, 5] 5).2.2.1,
   ⟨by decide, (toggle_ops_characterization [5, 3, 5] 5).2.2.2 (by decide)⟩⟩

/-- C7: every user-rejection error, from any of the three connector
variants, maps to the same fixed authorization message, and every error
maps to exactly one of the four fixed message strings (the four are
pairwise distinct). -/
theorem error_message_mapping :
    (∀ e, isUserRejection e = true →
        getErrorMessage e =
          "Please authorize this website to access your Ethereum account.") ∧
    errorMessages.Nodup ∧
    (∀ e, getErrorMessage e ∈ errorMessages) := by
  refine ⟨?_, by decide, ?_⟩
  · intro e he
    cases e <;> simp_all [isUserRejection, getErrorMessage]
  · intro e
    cases e <;> simp [getErrorMessage, errorMessages]

/-- C7 witness: a concrete instance of error_message_mapping. -/
theorem error_message_mapping_witness :
    isUserRejection JsError.userRejectedWalletConnect = true ∧
    getErrorMessage JsError.userRejectedWalletConnect =
      "Please authorize this website to access your Ethereum account." ∧
    getErrorMessage JsError.userRejectedWalletConnect ∈ errorMessages :=
  ⟨rfl,
   error_message_mapping.1 JsError.userRejectedWalletConnect rfl,
   error_message_mapping.2.2 JsError.userRejectedWalletConnect⟩

/-- C6: a registry entry's connector button is disabled iff the eager
connect has not completed, or some connector is mid-activation, or this
entry's connector is the context's current connector, or the context holds
an error. -/
theorem connector_button_disabled_iff (s : AppState) (c : Connector) :
    connectorButtonDisabled s c = true ↔
      s.triedEager = false ∨
      (∃ a, s.activatingConnector = some a) ∨
      s.connector = some c ∨
      (∃ e, s.error = some e) := by
  simp only [connectorButtonDisabled, Bool.or_eq_true, Bool.not_eq_true',
    Option.isSome_iff_exists, beq_iff_eq]
  tauto

/-- C8: the activating-connector marker holds at most one connector (it is
none or some single connector after any event sequence), and one run of the
effect clears it as soon as the context's connector equals the marked
connector. -/
theorem activating_marker_spec (evs : List AppEvent) (c : Connector) :
    (runMarker none evs = none ∨ ∃ d, runMarker none evs = some d) ∧
    activatingEffect (some c) (some c) = none := by
  constructor
  · cases h : runMarker none evs with
    | none => exact Or.inl rfl
    | some d => exact Or.inr ⟨d, rfl⟩
  · simp [activatingEffect]

/-- C9: the Interact panel renders nothing whenever the library or the
account is absent, so no Approve, Fetch or Stake action is invocable. -/
theorem interact_hidden_without_connection (lib : Option Library)
    (acct : Option Account) (st : InteractState)
    (h : lib = none ∨ acct = none) :
    renderInteract lib acct st = none ∧
    availableActions (renderInteract lib acct st) = [] := by
  have hr : renderInteract lib acct st = none := by
    rcases h with h | h
    · subst h; cases acct <;> rfl
    · subst h; cases lib <;> rfl
  exact ⟨hr, by rw [hr]; rfl⟩

/-- C9 witness: a concrete instance of interact_hidden_without_connection
with a present account but absent library. -/
theorem interact_hidden_without_connection_witness :
    ((none : Option Library) = none ∨ (some "0xabc" : Option Account) = none) ∧
    renderInteract none (some "0xabc") default = none ∧
    availableActions (renderInteract none (some "0xabc") default) = [] :=
  ⟨Or.inl rfl,
   interact_hidden_without_connection none (some "0xabc") default (Or.inl rfl)⟩

/-- C2 counterexample: craniums balance 1, stallions balance 1, the single
cranium lookup rejects.  A per-index token lookup failed, yet the blocking
alert does not fire: the rejection of the inner Promise.all has no handler
(index.tsx 535-537), so it never reaches the catch of index.tsx 542-545.
The failed collection's setter is indeed not called. -/
theorem fetch_alert_counterexample :
    (fun (_ : Nat) => (Except.error "boom" : Except ContractErr BigNumber)) 0 =
        Except.error "boom" ∧
    (runFetch (Except.ok 1) (Except.ok 1) (fun _ => Except.error "boom")
        (fun i => Except.ok (BigNumber.mk i))).setCraniumBalance = none ∧
    (runFetch (Except.ok 1) (Except.ok 1) (fun _ => Except.error "boom")
        (fun i => Except.ok (BigNumber.mk i))).alertShown = false := by
  refine ⟨rfl, ?_, rfl⟩
  decide

/-- C2 (amended): a failure of either balance query surfaces as the
blocking alert and no owned-id setter runs; a failure of a per-index token
lookup does NOT trigger the alert (the inner rejection is unhandled), but
the failed collection's owned-id setter is still never called, so no
partial results are written. -/
theorem fetch_failure_containment
    (cb sb : Except ContractErr Nat)
    (cl sl : Nat → Except ContractErr BigNumber) :
    (∀ e, cb = Except.error e ∨ sb = Except.error e →
        (runFetch cb sb cl sl).alertShown = true ∧
        (runFetch cb sb cl sl).setCraniumBalance = none ∧
        (runFetch cb sb cl sl).setStallionBalance = none) ∧
    (∀ bc bs, cb = Except.ok bc → sb = Except.ok bs →
        (runFetch cb sb cl sl).alertShown = false ∧
        (∀ i e, i < bc → cl i = Except.error e →
            (runFetch cb sb cl sl).setCraniumBalance = none) ∧
        (∀ i e, i < bs → sl i = Except.error e →
            (runFetch cb sb cl sl).setStallionBalance = none)) := by
  constructor
  · intro e h
    rcases h with h | h
    · subst h; cases sb <;> simp [runFetch]
    · subst h; cases cb <;> simp [runFetch]
  · intro bc bs hcb hsb
    subst hcb; subst hsb
    refine ⟨rfl, ?_, ?_⟩
    · intro i e hi hcl
      have hmem : Except.error e ∈ (List.range bc).map cl :=
        List.mem_map.mpr ⟨i, List.mem_range.mpr hi, hcl⟩
      obtain ⟨e2, he2⟩ := promiseAll_error_of_mem _ e hmem
      simp [runFetch, resolveTokens, he2, Except.toOption]
    · intro i e hi hsl
      have hmem : Except.error e ∈ (List.range bs).map sl :=
        List.mem_map.mpr ⟨i, List.mem_range.mpr hi, hsl⟩
      obtain ⟨e2, he2⟩ := promiseAll_error_of_mem _ e hmem
      simp [runFetch, resolveTokens, he2, Except.toOption]

/-- C2 witness: concrete instances of both parts of
fetch_failure_containment. -/
theorem fetch_failure_containment_witness :
    ((Except.error "down" : Except ContractErr Nat) = Except.error "down" ∨
        (Except.ok 1 : Except ContractErr Nat) = Except.error "down") ∧
    (runFetch (Except.error "down") (Except.ok 1) (fun i => Except.ok (BigNumber.mk i))
        (fun i => Except.ok (BigNumber.mk i))).alertShown = true ∧
    (runFetch (Except.error "down") (Except.ok 1) (fun i => Except.ok (BigNumber.mk i))
        (fun i => Except.ok (BigNumber.mk i))).setCraniumBalance = none ∧
    (runFetch (Except.ok 2) (Except.ok 1) (fun _ => Except.error "boom")
        (fun i => Except.ok (BigNumber.mk i))).setCraniumBalance = none := by
  refine ⟨Or.inl rfl, ?_, ?_, ?_⟩
  · exact ((fetch_failure_containment (Except.error "down") (Except.ok 1) _ _).1
      "down" (Or.inl rfl)).1
  · exact ((fetch_failure_containment (Except.error "down") (Except.ok 1) _ _).1
      "down" (Or.inl rfl)).2.1
  · exact ((fetch_failure_containment (Except.ok 2) (Except.ok 1)
      (fun _ => Except.error "boom") (fun i => Except.ok (BigNumber.mk i))).2
      2 1 rfl rfl).2.1 0 "boom" (by omega) rfl

/-- C3: with balances bc and bs and all lookups fulfilled, Fetch issues
exactly bc cranium lookups at indices 0..bc-1 and bs stallion lookups at
indices 0..bs-1, and sets each owned-id sequence to the resolved values
converted to numbers, in index order; with both balances 0 both sequences
are set to empty and no id checkboxes render. -/
theorem fetch_populates_owned_ids
    (bc bs : Nat) (cl sl : Nat → Except ContractErr BigNumber)
    (cv sv : Nat → BigNumber)
    (hc : ∀ i, cl i = Except.ok (cv i)) (hs : ∀ i, sl i = Except.ok (sv i)) :
    ((runFetch (Except.ok bc) (Except.ok bs) cl sl).craniumLookupIndices.length = bc ∧
      ∀ i, i ∈ (runFetch (Except.ok bc) (Except.ok bs) cl sl).craniumLookupIndices ↔ i < bc) ∧
    ((runFetch (Except.ok bc) (Except.ok bs) cl sl).stallionLookupIndices.length = bs ∧
      ∀ i, i ∈ (runFetch (Except.ok bc) (Except.ok bs) cl sl).stallionLookupIndices ↔ i < bs) ∧
    (runFetch (Except.ok bc) (Except.ok bs) cl sl).setCraniumBalance =
      some ((List.range bc).map (fun i => toNumber (cv i))) ∧
    (runFetch (Except.ok bc) (Except.ok bs) cl sl).setStallionBalance =
      some ((List.range bs).map (fun i => toNumber (sv i))) ∧
    (bc = 0 → bs = 0 →
      (runFetch (Except.ok bc) (Except.ok bs) cl sl).setCraniumBalance = some [] ∧
      (runFetch (Except.ok bc) (Except.ok bs) cl sl).setStallionBalance = some [] ∧
      renderCheckboxes "cranium" [] = [] ∧ renderCheckboxes "stallion" [] = []) := by
  have hcmap : (List.range bc).map cl =
      (List.range bc).map (fun i => Except.ok (cv i)) :=
    List.map_congr_left fun i _ => hc i
  have hsmap : (List.range bs).map sl =
      (List.range bs).map (fun i => Except.ok (sv i)) :=
    List.map_congr_left fun i _ => hs i
  have h1 : resolveTokens cl bc = Except.ok ((List.range bc).map cv) := by
    rw [resolveTokens, hcmap, promiseAll_map_ok]
  have h2 : resolveTokens sl bs = Except.ok ((List.range bs).map sv) := by
    rw [resolveTokens, hsmap, promiseAll_map_ok]
  have hset1 : (runFetch (Except.ok bc) (Except.ok bs) cl sl).setCraniumBalance =
      some ((List.range bc).map (fun i => toNumber (cv i))) := by
    simp [runFetch, h1, Except.toOption, List.map_map, Function.comp]
  have hset2 : (runFetch (Except.ok bc) (Except.ok bs) cl sl).setStallionBalance =
      some ((List.range bs).map (fun i => toNumber (sv i))) := by
    simp [runFetch, h2, Except.toOption, List.map_map, Function.comp]
  refine ⟨⟨?_, ?_⟩, ⟨?_, ?_⟩, hset1, hset2, ?_⟩
  · simp [runFetch]
  · intro i; simp [runFetch, List.mem_range]
  · simp [runFetch]
  · intro i; simp [runFetch, List.mem_range]
  · intro hbc hbs
    subst hbc; subst hbs
    exact ⟨hset1, hset2, rfl, rfl⟩

/-- C3 witness: a concrete instance of fetch_populates_owned_ids with
cranium balance 2 and stallion balance 1. -/
theorem fetch_populates_owned_ids_witness :
    (runFetch (Except.ok 2) (Except.ok 1) (fun i => Except.ok (BigNumber.mk (10 + i)))
        (fun i => Except.ok (BigNumber.mk (20 + i)))).craniumLookupIndices.length = 2 ∧
    (runFetch (Except.ok 2) (Except.ok 1) (fun i => Except.ok (BigNumber.mk (10 + i)))
        (fun i => Except.ok (BigNumber.mk (20 + i)))).setCraniumBalance = some [10, 11] ∧
    (runFetch (Except.ok 2) (Except.ok 1) (fun i => Except.ok (BigNumber.mk (10 + i)))
        (fun i => Except.ok (BigNumber.mk (20 + i)))).setStallionBalance = some [20] := by
  refine ⟨?_, ?_, ?_⟩
  · exact (fetch_populates_owned_ids 2 1
      (fun i => Except.ok (BigNumber.mk (10 + i))) (fun i => Except.ok (BigNumber.mk (20 + i)))
      (fun i => BigNumber.mk (10 + i)) (fun i => BigNumber.mk (20 + i))
      (fun _ => rfl) (fun _ => rfl)).1.1
  · exact ((fetch_populates_owned_ids 2 1
      (fun i => Except.ok (BigNumber.mk (10 + i))) (fun i => Except.ok (BigNumber.mk (20 + i)))
      (fun i => BigNumber.mk (10 + i)) (fun i => BigNumber.mk (20 + i))
      (fun _ => rfl) (fun _ => rfl)).2.2.1).trans (by decide)
  · exact ((fetch_populates_owned_ids 2 1
      (fun i => Except.ok (BigNumber.mk (10 + i))) (fun i => Except.ok (BigNumber.mk (20 + i)))
      (fun i => BigNumber.mk (10 + i)) (fun i => BigNumber.mk (20 + i))
      (fun _ => rfl) (fun _ => rfl)).2.2.2.1).trans (by decide)

/-- C4: in every trace of a Fetch run, the balance resolution precedes
every issued token lookup, and the two collections' resolutions carry no
ordering relation: both completion orders are realized by valid traces. -/
theorem fetch_ordering (bc bs : Nat) (o : Bool) :
    (∀ (k : Nat) (c : Coll) (i : Nat),
        (fetchTrace bc bs o)[k]? = some (FetchEvent.lookupIssued c i) →
        eventBefore (fetchTrace bc bs o) FetchEvent.balancesResolved
          (FetchEvent.lookupIssued c i)) ∧
    eventBefore (fetchTrace bc bs true) (FetchEvent.tokensResolved Coll.cranium)
      (FetchEvent.tokensResolved Coll.stallion) ∧
    eventBefore (fetchTrace bc bs false) (FetchEvent.tokensResolved Coll.stallion)
      (FetchEvent.tokensResolved Coll.cranium) := by
  refine ⟨?_, ?_, ?_⟩
  · intro k c i hk
    have h0 : (fetchTrace bc bs o)[0]? = some FetchEvent.balancesResolved := by
      simp [fetchTrace]
    refine ⟨0, k, ?_, h0, hk⟩
    cases k with
    | zero => rw [h0] at hk; simp at hk
    | succ m => exact Nat.succ_pos m
  · refine ⟨(lookupIssueEvents bc bs).length + 1 + 0,
      (lookupIssueEvents bc bs).length + 1 + 1, by omega, ?_, ?_⟩
    · exact (cons_append_getElem _ _ _ 0).trans rfl
    · exact (cons_append_getElem _ _ _ 1).trans rfl
  · refine ⟨(lookupIssueEvents bc bs).length + 1 + 0,
      (lookupIssueEvents bc bs).length + 1 + 1, by omega, ?_, ?_⟩
    · exact (cons_append_getElem _ _ _ 0).trans rfl
    · exact (cons_append_getElem _ _ _ 1).trans rfl

/-- C4 witness: a concrete instance of fetch_ordering with balances 1 and
1. -/
theorem fetch_ordering_witness :
    (fetchTrace 1 1 true)[1]? = some (FetchEvent.lookupIssued Coll.cranium 0) ∧
    eventBefore (fetchTrace 1 1 true) FetchEvent.balancesResolved
      (FetchEvent.lookupIssued Coll.cranium 0) :=
  ⟨rfl, (fetch_ordering 1 1 true).1 1 Coll.cranium 0 rfl⟩

end WickedStake
